import Mathlib

/-!
Verification of the streaming-session / human-in-the-loop client in `App.jsx`.

The embedding models the JavaScript values produced by `JSON.parse` with the
inductive type `Json` (numbers are kept as their source lexeme, which agrees
with JavaScript number-to-string conversion on all integer and plain decimal
literals), `undefined` as `none : Option Json`, and the React component state
(`logs`, `isRunning`, `batchStatus`, and the five prompt-family records) as the
structure `AppState`.  Entry timestamps (`new Date()`) are wall-clock values
and are omitted from `LogEntry`.  Network requests are out of scope; the
submission handlers take the outcome of the `fetch` as an explicit
`FetchResult` argument.
-/

namespace AgentApp

/-- A JavaScript value decoded from JSON.  Numbers keep their lexeme. -/
inductive Json where
  | null
  | bool (b : Bool)
  | num (lexeme : String)
  | str (s : String)
  | arr (elems : List Json)
  | obj (fields : List (String × Json))

/-- A JavaScript value that may also be `undefined` (modelled as `none`). -/
abbrev JsVal := Option Json

/-- Last-writer-wins field lookup, as built by `JSON.parse` for duplicate keys. -/
def lookupLast (fs : List (String × Json)) (k : String) : Option Json :=
  fs.foldl (fun acc p => if p.1 = k then some p.2 else acc) none

/-- Property access `j[k]` on a defined, non-null JavaScript value.
JavaScript strings and arrays expose `length`; other non-object values have
no own properties (the access yields `undefined`). -/
def propV (j : Json) (k : String) : JsVal :=
  match j with
  | Json.obj fs => lookupLast fs k
  | Json.str s => if k = "length" then some (Json.num (toString s.length)) else none
  | Json.arr l => if k = "length" then some (Json.num (toString l.length)) else none
  | _ => none

/-- Property access lifted to possibly-undefined values; callers in
`handleEvent` only use it after the corresponding definedness guard, matching
where the JavaScript code could throw a `TypeError`. -/
def propJ (v : JsVal) (k : String) : JsVal :=
  match v with
  | some j => propV j k
  | none => none

/-- `true` when the value is neither `undefined` nor `null`, i.e. when a
member access on it does not throw. -/
def definedV (v : JsVal) : Bool :=
  match v with
  | none => false
  | some Json.null => false
  | _ => true

/-- Whether a JSON number lexeme denotes zero (its mantissa has no nonzero
digit). -/
def numIsZero (lx : String) : Bool :=
  (lx.toList.takeWhile (fun c => c ≠ 'e' ∧ c ≠ 'E')).all
    (fun c => c = '0' || c = '.' || c = '-')

/-- JavaScript falsiness of a value (`!v`). -/
def jsFalsy (v : JsVal) : Bool :=
  match v with
  | none => true
  | some Json.null => true
  | some (Json.bool b) => !b
  | some (Json.num lx) => numIsZero lx
  | some (Json.str s) => s.isEmpty
  | some (Json.arr _) => false
  | some (Json.obj _) => false

mutual

/-- JavaScript `String(v)` conversion for a defined value. -/
def jsonToStr : Json → String
  | Json.null => "null"
  | Json.bool true => "true"
  | Json.bool false => "false"
  | Json.num lx => lx
  | Json.str s => s
  | Json.arr l => joinElems l
  | Json.obj _ => "[object Object]"

/-- `Array.prototype.join(",")`: `null` elements render as the empty string. -/
def jsonElemToStr : Json → String
  | Json.null => ""
  | Json.bool true => "true"
  | Json.bool false => "false"
  | Json.num lx => lx
  | Json.str s => s
  | Json.arr l => joinElems l
  | Json.obj _ => "[object Object]"

def joinElems : List Json → String
  | [] => ""
  | [x] => jsonElemToStr x
  | x :: y :: xs => jsonElemToStr x ++ "," ++ joinElems (y :: xs)

end

/-- Template-literal interpolation `${v}`; `undefined` renders as
the string "undefined". -/
def jsToString (v : JsVal) : String :=
  match v with
  | none => "undefined"
  | some j => jsonToStr j

/-- JSON insignificant whitespace. -/
def isJsonWs (c : Char) : Bool :=
  c = ' ' || c = '\t' || c = '\n' || c = '\r'

def skipWs : List Char → List Char
  | [] => []
  | c :: cs => if isJsonWs c then skipWs cs else c :: cs

/-- Hexadecimal digit value, for `\\u` escapes. -/
def hexVal (c : Char) : Option Nat :=
  if '0' ≤ c ∧ c ≤ '9' then some (c.toNat - '0'.toNat)
  else if 'a' ≤ c ∧ c ≤ 'f' then some (c.toNat - 'a'.toNat + 10)
  else if 'A' ≤ c ∧ c ≤ 'F' then some (c.toNat - 'A'.toNat + 10)
  else none

/-- Body of a JSON string literal after the opening quote; returns the decoded
string and the input after the closing quote.  Raw control characters and
invalid escapes are rejected, as in `JSON.parse`. -/
def parseStrAux (acc : List Char) : List Char → Option (String × List Char)
  | [] => none
  | '"' :: rest => some (String.mk acc.reverse, rest)
  | '\\' :: rest =>
    match rest with
    | 'n' :: r => parseStrAux ('\n' :: acc) r
    | 't' :: r => parseStrAux ('\t' :: acc) r
    | 'r' :: r => parseStrAux ('\r' :: acc) r
    | 'b' :: r => parseStrAux (Char.ofNat 8 :: acc) r
    | 'f' :: r => parseStrAux (Char.ofNat 12 :: acc) r
    | '"' :: r => parseStrAux ('"' :: acc) r
    | '\\' :: r => parseStrAux ('\\' :: acc) r
    | '/' :: r => parseStrAux ('/' :: acc) r
    | 'u' :: a :: b :: c :: d :: r =>
      match hexVal a, hexVal b, hexVal c, hexVal d with
      | some x, some y, some z, some w =>
        parseStrAux (Char.ofNat (((x * 16 + y) * 16 + z) * 16 + w) :: acc) r
      | _, _, _, _ => none
    | _ => none
  | c :: rest => if c.toNat < 32 then none else parseStrAux (c :: acc) rest

def takeDigits : List Char → (List Char × List Char)
  | [] => ([], [])
  | c :: cs =>
    if c.isDigit then
      let p := takeDigits cs
      (c :: p.1, p.2)
    else ([], c :: cs)

/-- Integer part of a JSON number: `0` or a nonzero digit followed by digits
(leading zeros are not absorbed, as in the JSON grammar). -/
def parseIntPart : List Char → Option (List Char × List Char)
  | '0' :: r => some (['0'], r)
  | c :: r =>
    if c.isDigit then
      let p := takeDigits r
      some (c :: p.1, p.2)
    else none
  | [] => none

def parseFracPart : List Char → Option (List Char × List Char)
  | '.' :: r =>
    let p := takeDigits r
    if p.1.isEmpty then none else some ('.' :: p.1, p.2)
  | cs => some ([], cs)

def parseExpPart : List Char → Option (List Char × List Char)
  | c :: r =>
    if c = 'e' ∨ c = 'E' then
      match r with
      | s :: r2 =>
        if s = '+' ∨ s = '-' then
          let p := takeDigits r2
          if p.1.isEmpty then none else some (c :: s :: p.1, p.2)
        else
          let p := takeDigits r
          if p.1.isEmpty then none else some (c :: p.1, p.2)
      | [] => none
    else some ([], c :: r)
  | [] => some ([], [])

/-- A JSON number token; returns its lexeme. -/
def parseNumber (cs : List Char) : Option (String × List Char) :=
  let sp := match cs with
            | '-' :: r => (['-'], r)
            | _ => (([] : List Char), cs)
  match parseIntPart sp.2 with
  | none => none
  | some (ip, r1) =>
    match parseFracPart r1 with
    | none => none
    | some (fp, r2) =>
      match parseExpPart r2 with
      | none => none
      | some (ep, r3) => some (String.mk (sp.1 ++ ip ++ fp ++ ep), r3)

mutual

/-- One JSON value, fuelled recursive descent. -/
def parseValue : Nat → List Char → Option (Json × List Char)
  | 0, _ => none
  | Nat.succ f, cs =>
    match skipWs cs with
    | '{' :: rest =>
      (match skipWs rest with
       | '}' :: r2 => some (Json.obj [], r2)
       | cs2 => parseMembers f [] cs2)
    | '[' :: rest =>
      (match skipWs rest with
       | ']' :: r2 => some (Json.arr [], r2)
       | cs2 => parseElements f [] cs2)
    | '"' :: rest => (parseStrAux [] rest).map (fun p => (Json.str p.1, p.2))
    | 't' :: 'r' :: 'u' :: 'e' :: r => some (Json.bool true, r)
    | 'f' :: 'a' :: 'l' :: 's' :: 'e' :: r => some (Json.bool false, r)
    | 'n' :: 'u' :: 'l' :: 'l' :: r => some (Json.null, r)
    | c :: rest =>
      if c = '-' ∨ c.isDigit then
        (parseNumber (c :: rest)).map (fun p => (Json.num p.1, p.2))
      else none
    | [] => none

/-- Members of a JSON object after the opening brace (cursor at a key). -/
def parseMembers : Nat → List (String × Json) → List Char → Option (Json × List Char)
  | 0, _, _ => none
  | Nat.succ f, acc, cs =>
    match cs with
    | '"' :: rest =>
      (match parseStrAux [] rest with
       | none => none
       | some (key, r1) =>
         match skipWs r1 with
         | ':' :: r2 =>
           (match parseValue f r2 with
            | none => none
            | some (v, r3) =>
              match skipWs r3 with
              | ',' :: r4 => parseMembers f (acc ++ [(key, v)]) (skipWs r4)
              | '}' :: r4 => some (Json.obj (acc ++ [(key, v)]), r4)
              | _ => none)
         | _ => none)
    | _ => none

/-- Elements of a JSON array after the opening bracket. -/
def parseElements : Nat → List Json → List Char → Option (Json × List Char)
  | 0, _, _ => none
  | Nat.succ f, acc, cs =>
    match parseValue f cs with
    | none => none
    | some (v, r1) =>
      match skipWs r1 with
      | ',' :: r2 => parseElements f (acc ++ [v]) r2
      | ']' :: r2 => some (Json.arr (acc ++ [v]), r2)
      | _ => none

end

/-- `JSON.parse` on a character sequence: one JSON value surrounded by
optional whitespace; every other input throws (modelled as `none`). -/
def parseJsonChars (cs : List Char) : Option Json :=
  match parseValue (cs.length + 2) cs with
  | some (v, rest) => if (skipWs rest).isEmpty then some v else none
  | none => none

/-- `JSON.parse`. -/
def parseJson (s : String) : Option Json :=
  parseJsonChars s.toList

/-- One rendered timeline entry (the `timestamp: new Date()` field is
wall-clock and not modelled).  `type` is one of text, error, success,
result-json, batch-start, batch-complete; `results` is only populated by
batch-complete entries. -/
structure LogEntry where
  type : String
  content : JsVal
  results : JsVal

/-- `hitlData` state: the free-text prompt family. -/
structure HitlData where
  isOpen : Bool
  question : JsVal
  sessionId : JsVal

/-- `productChoices` state. -/
structure ProductChoicesData where
  isOpen : Bool
  message : JsVal
  products : JsVal
  sessionId : JsVal

/-- `addressChoices` state. -/
structure AddressChoicesData where
  isOpen : Bool
  message : JsVal
  addresses : JsVal
  sessionId : JsVal

/-- `paymentChoices` state. -/
structure PaymentChoicesData where
  isOpen : Bool
  message : JsVal
  payments : JsVal
  sessionId : JsVal

/-- `generalOptions` state. -/
structure GeneralOptionsData where
  isOpen : Bool
  message : JsVal
  options : JsVal
  optionType : JsVal
  sessionId : JsVal

/-- The component state touched by the streaming/HITL core (form fields such
as `platform` and `csvData` feed only outgoing requests and are omitted). -/
structure AppState where
  isRunning : Bool
  logs : List LogEntry
  batchStatus : JsVal
  hitlData : HitlData
  productChoices : ProductChoicesData
  addressChoices : AddressChoicesData
  paymentChoices : PaymentChoicesData
  generalOptions : GeneralOptionsData

/-- `setLogs(prev => [...prev, entry])`. -/
def pushLog (s : AppState) (entry : LogEntry) : AppState :=
  { s with logs := s.logs ++ [entry] }

/-- The `useState` initial values. -/
def initialState : AppState :=
  { isRunning := false
    logs := []
    batchStatus := some (Json.arr [])
    hitlData := ⟨false, some (Json.str ""), some (Json.str "")⟩
    productChoices := ⟨false, some (Json.str ""), some (Json.arr []), some (Json.str "")⟩
    addressChoices := ⟨false, some (Json.str ""), some (Json.arr []), some (Json.str "")⟩
    paymentChoices := ⟨false, some (Json.str ""), some (Json.arr []), some (Json.str "")⟩
    generalOptions := ⟨false, some (Json.str ""), some (Json.arr []), some (Json.str "general"), some (Json.str "")⟩ }

/-!
The dispatcher `handleEvent`.  The JavaScript `else if` chain on `event.type`
(a strict string comparison per arm) is rendered as a match on the value of
`event.type`, with one named function per arm.  Where the JavaScript code
would throw a `TypeError` part-way through an arm (a member access on an
undefined or null `event.content`, or on undefined `products`/`addresses`),
the state updates already issued remain and the rest of the arm is skipped;
the exception is swallowed by the `try`/`catch` around the dispatch call in
the read loops.
-/

/-- The `config` arm. -/
def configArm (event : Json) (s : AppState) : AppState :=
  let config := propV event "content"
  if definedV config then
    pushLog s ⟨"text", some (Json.str ("Agent started: " ++
      jsToString (propJ config "platform") ++ "/" ++
      jsToString (propJ config "action") ++ " (temperature: " ++
      jsToString (propJ config "temperature") ++ ")")), none⟩
  else s

/-- The `batch_start` arm. -/
def batchStartArm (event : Json) (s : AppState) : AppState :=
  let config := propV event "content"
  if definedV config then
    pushLog s ⟨"batch-start", some (Json.str ("Batch order started: " ++
      jsToString (propJ config "total_items") ++ " items on " ++
      jsToString (propJ config "platform"))), none⟩
  else s

/-- The `batch_status` arm: `setBatchStatus(event.content)`. -/
def batchStatusArm (event : Json) (s : AppState) : AppState :=
  { s with batchStatus := propV event "content" }

/-- The `batch_complete` arm. -/
def batchCompleteArm (event : Json) (s : AppState) : AppState :=
  let result := propV event "content"
  if definedV result then
    pushLog s ⟨"batch-complete", some (Json.str ("Batch completed: " ++
      jsToString (propJ result "success") ++ "/" ++
      jsToString (propJ result "total") ++ " succeeded, " ++
      jsToString (propJ result "failed") ++ " failed")),
      propJ result "results"⟩
  else s

/-- The `log` arm. -/
def logArm (event : Json) (s : AppState) : AppState :=
  pushLog s ⟨"text", propV event "content", none⟩

/-- The `request_input` arm. -/
def requestInputArm (event : Json) (s : AppState) : AppState :=
  { s with hitlData := ⟨true, propV event "content", propV event "session_id"⟩ }

/-- The `product_choices` arm. -/
def productChoicesArm (event : Json) (s : AppState) : AppState :=
  let content := propV event "content"
  if definedV content then
    let s1 := { s with productChoices :=
      ⟨true, propJ content "message", propJ content "products", propV event "session_id"⟩ }
    if definedV (propJ content "products") then
      pushLog s1 ⟨"text", some (Json.str ("Found " ++
        jsToString (propJ (propJ content "products") "length") ++
        " products. Please select one...")), none⟩
    else s1
  else s

/-- The `address_choices` arm. -/
def addressChoicesArm (event : Json) (s : AppState) : AppState :=
  let content := propV event "content"
  if definedV content then
    let s1 := { s with addressChoices :=
      ⟨true, propJ content "message", propJ content "addresses", propV event "session_id"⟩ }
    if definedV (propJ content "addresses") then
      pushLog s1 ⟨"text", some (Json.str ("Found " ++
        jsToString (propJ (propJ content "addresses") "length") ++
        " delivery addresses. Please select one...")), none⟩
    else s1
  else s

/-- The `payment_choices` arm. -/
def paymentChoicesArm (event : Json) (s : AppState) : AppState :=
  let content := propV event "content"
  if definedV content then
    pushLog { s with paymentChoices :=
      ⟨true, propJ content "message", propJ content "payments", propV event "session_id"⟩ }
      ⟨"text", some (Json.str "Available payment methods. Please select one..."), none⟩
  else s

/-- The `options` arm: `option_type: event.content.option_type || 'general'`. -/
def optionsArm (event : Json) (s : AppState) : AppState :=
  let content := propV event "content"
  if definedV content then
    pushLog { s with generalOptions :=
      ⟨true, propJ content "message", propJ content "options",
        (if jsFalsy (propJ content "option_type") then some (Json.str "general")
         else propJ content "option_type"),
        propV event "session_id"⟩ }
      ⟨"text", some (Json.str (jsToString (propJ content "message"))), none⟩
  else s

/-- The `result` arm: `JSON.parse(event.content)` string-coerces its
argument first. -/
def resultArm (event : Json) (s : AppState) : AppState :=
  match parseJson (jsToString (propV event "content")) with
  | some parsed => pushLog s ⟨"result-json", some parsed, none⟩
  | none => pushLog s ⟨"success", some (Json.str ("**Result:** " ++
      jsToString (propV event "content"))), none⟩

/-- The `error` arm. -/
def errorArm (event : Json) (s : AppState) : AppState :=
  pushLog s ⟨"error", some (Json.str ("**Error:** " ++
    jsToString (propV event "content"))), none⟩

/-- JavaScript strict equality `v === 'lit'` between a value and a string
literal: true exactly when `v` is that string. -/
def jsStrEq (v : JsVal) (lit : String) : Bool :=
  match v with
  | some (Json.str s) => s = lit
  | _ => false

/-- The dispatcher: `if (!event) return;` then the `else if` chain of strict
comparisons on `event.type`; an unrecognized or absent type is a no-op. -/
def handleEvent (event : Json) (s : AppState) : AppState :=
  if jsFalsy (some event) then s
  else if jsStrEq (propV event "type") "config" then configArm event s
  else if jsStrEq (propV event "type") "batch_start" then batchStartArm event s
  else if jsStrEq (propV event "type") "batch_status" then batchStatusArm event s
  else if jsStrEq (propV event "type") "batch_complete" then batchCompleteArm event s
  else if jsStrEq (propV event "type") "log" then logArm event s
  else if jsStrEq (propV event "type") "request_input" then requestInputArm event s
  else if jsStrEq (propV event "type") "product_choices" then productChoicesArm event s
  else if jsStrEq (propV event "type") "address_choices" then addressChoicesArm event s
  else if jsStrEq (propV event "type") "payment_choices" then paymentChoicesArm event s
  else if jsStrEq (propV event "type") "options" then optionsArm event s
  else if jsStrEq (propV event "type") "result" then resultArm event s
  else if jsStrEq (propV event "type") "error" then errorArm event s
  else s

/-- The value of `event.type`. -/
def evType (e : Json) : JsVal := propV e "type"

/-- `a.startsWith(b)` on character sequences. -/
def startsWithChars : List Char → List Char → Bool
  | [], _ => true
  | _ :: _, [] => false
  | a :: ps, b :: rest => a = b && startsWithChars ps rest

/-- `chunk.split('\n\n')`: maximal segments between non-overlapping
occurrences of the double line-break, scanned left to right, with the
second argument accumulating the current segment in reverse. -/
def splitOnNlNl : List Char → List Char → List (List Char)
  | '\n' :: '\n' :: rest, acc => acc.reverse :: splitOnNlNl rest []
  | c :: rest, acc => splitOnNlNl rest (c :: acc)
  | [], acc => [acc.reverse]

/-- The body of the per-line step of both read loops: lines that do not start
with the `data: ` marker are skipped; the marker is sliced off
(`line.slice(6)`); an empty remainder is a keep-alive; a remainder that fails
`JSON.parse` is dropped by the surrounding `catch`; otherwise the decoded
event is dispatched. -/
def processLine (s : AppState) (line : List Char) : AppState :=
  if startsWithChars "data: ".toList line then
    let jsonStr := line.drop 6
    if jsonStr.isEmpty then s
    else
      match parseJsonChars jsonStr with
      | some event => handleEvent event s
      | none => s
  else s

/-- One read: `chunk.split('\n\n')` then the per-line loop.  No remainder is
carried to the next read. -/
def processChunk (s : AppState) (chunk : String) : AppState :=
  (splitOnNlNl chunk.toList []).foldl processLine s

/-- The whole read loop over the successive chunks of a stream. -/
def processChunks (s : AppState) (chunks : List String) : AppState :=
  chunks.foldl processChunk s

/-- Dispatch of a list of already-decoded events, in order. -/
def handleEvents (es : List Json) (s : AppState) : AppState :=
  es.foldl (fun st e => handleEvent e st) s

/-- The state mutations `runAgent` performs before its fetch/read loop:
`setIsRunning(true); setLogs([])`. -/
def startRunAgent (s : AppState) : AppState :=
  { s with isRunning := true, logs := [] }

/-- The state mutations `runBatchAgent` performs before its fetch/read loop:
`setIsRunning(true); setLogs([]); setBatchStatus([])`. -/
def startBatchAgent (s : AppState) : AppState :=
  { s with isRunning := true, logs := [], batchStatus := some (Json.arr []) }

/-- A complete error-free `runAgent` call: start mutations, then the read
loop, then the `finally` clause `setIsRunning(false)`. -/
def runAgentModel (chunks : List String) (s : AppState) : AppState :=
  { processChunks (startRunAgent s) chunks with isRunning := false }

/-- A complete error-free `runBatchAgent` call. -/
def runBatchAgentModel (chunks : List String) (s : AppState) : AppState :=
  { processChunks (startBatchAgent s) chunks with isRunning := false }

/-- Outcome of the `fetch` + `response.json()` in a submission handler:
a rejected fetch (network error, with the thrown error's message), a
non-ok HTTP response (its status code), or an ok response with a decoded
JSON body. -/
inductive FetchResult where
  | netError (msg : String)
  | httpError (status : Nat)
  | okBody (body : Json)

/-- The shared error analysis of all five submission handlers: `none` means
the handler reaches its success branch; `some msg` is the caught error's
message.  A null body makes `result.status` throw a `TypeError`; its
host-defined message is modelled with the common engine wording. -/
def submitError (resp : FetchResult) : Option String :=
  match resp with
  | FetchResult.netError msg => some msg
  | FetchResult.httpError status => some ("Server error: " ++ toString status)
  | FetchResult.okBody Json.null =>
    some "Cannot read properties of null (reading 'status')"
  | FetchResult.okBody body =>
    match propV body "status" with
    | some (Json.str "error") =>
      some (if jsFalsy (propV body "message") then "Unknown error"
            else jsToString (propV body "message"))
    | _ => none

/-- `handleHitlSubmit`: on success only `setHitlData(prev => ({...prev,
isOpen: false}))`; on failure an error entry is appended and the prompt is
untouched. -/
def handleHitlSubmit (resp : FetchResult) (s : AppState) : AppState :=
  match submitError resp with
  | some msg =>
    pushLog s ⟨"error", some (Json.str ("Failed to submit input: " ++ msg)), none⟩
  | none => { s with hitlData := { s.hitlData with isOpen := false } }

/-- `handleProductSelect`. -/
def handleProductSelect (resp : FetchResult) (product : Json) (s : AppState) : AppState :=
  match submitError resp with
  | some msg =>
    pushLog s ⟨"error", some (Json.str ("Failed to submit selection: " ++ msg)), none⟩
  | none =>
    pushLog { s with productChoices := { s.productChoices with isOpen := false } }
      ⟨"text", some (Json.str ("Selected: " ++ jsToString (propV product "product_name"))), none⟩

/-- `handleAddressSelect`. -/
def handleAddressSelect (resp : FetchResult) (address : Json) (s : AppState) : AppState :=
  match submitError resp with
  | some msg =>
    pushLog s ⟨"error", some (Json.str ("Failed to submit selection: " ++ msg)), none⟩
  | none =>
    pushLog { s with addressChoices := { s.addressChoices with isOpen := false } }
      ⟨"text", some (Json.str ("Selected address: " ++ jsToString (propV address "name") ++
        " - " ++ jsToString (propV address "address"))), none⟩

/-- `handlePaymentSelect`. -/
def handlePaymentSelect (resp : FetchResult) (payment : Json) (s : AppState) : AppState :=
  match submitError resp with
  | some msg =>
    pushLog s ⟨"error", some (Json.str ("Failed to submit selection: " ++ msg)), none⟩
  | none =>
    pushLog { s with paymentChoices := { s.paymentChoices with isOpen := false } }
      ⟨"text", some (Json.str ("Selected payment: " ++ jsToString (propV payment "method"))), none⟩

/-- `handleOptionSelect`. -/
def handleOptionSelect (resp : FetchResult) (opt : Json) (s : AppState) : AppState :=
  match submitError resp with
  | some msg =>
    pushLog s ⟨"error", some (Json.str ("Failed to submit selection: " ++ msg)), none⟩
  | none =>
    pushLog { s with generalOptions := { s.generalOptions with isOpen := false } }
      ⟨"text", some (Json.str ("Selected: " ++ jsToString (propV opt "label"))), none⟩

/-! ### Sample values used in concrete statements -/

/-- A plain text timeline entry. -/
def textEntry (c : String) : LogEntry := ⟨"text", some (Json.str c), none⟩

/-- An error timeline entry. -/
def errorEntry (c : String) : LogEntry := ⟨"error", some (Json.str c), none⟩

/-- A state mid-run with an open free-text prompt and a non-empty batch
snapshot. -/
def runningPromptState : AppState :=
  { initialState with
    hitlData := ⟨true, some (Json.str "Which one?"), some (Json.str "sess-1")⟩
    batchStatus := some (Json.arr [Json.obj [("idx", Json.num "0"), ("status", Json.str "pending")]]) }

/-- A successful resume response: HTTP ok, body `{"status":"ok"}`. -/
def okSubmitResp : FetchResult := FetchResult.okBody (Json.obj [("status", Json.str "ok")])

/-- A product record as the backend sends it. -/
def sampleProduct : Json :=
  Json.obj [("product_name", Json.str "Widget"), ("price", Json.str "$9")]

/-- A well-formed `product_choices` event. -/
def productChoicesEvent : Json :=
  Json.obj [("type", Json.str "product_choices"),
    ("content", Json.obj [("message", Json.str "Pick one"),
      ("products", Json.arr [sampleProduct])]),
    ("session_id", Json.str "sess-2")]

/-- The three-frame chunk with a malformed middle frame. -/
def threeFrameChunk : String :=
  "data: \x7b\"type\":\"log\",\"content\":\"a\"\x7d\n\ndata: not-json\n\ndata: \x7b\"type\":\"log\",\"content\":\"b\"\x7d\n\n"

/-- A well-formed frame split in the middle of its JSON body. -/
def splitBodyChunks : List String :=
  ["data: \x7b\"type\":\"log\",\"co", "ntent\":\"a\"\x7d\n\n"]

/-- A well-formed frame split between the two newlines of its delimiter. -/
def splitDelimChunks : List String :=
  ["data: \x7b\"type\":\"log\",\"content\":\"a\"\x7d\n", "\n"]

/-- The sequence of timeline entries `handleEvent` appends for an event;
it depends only on the event. -/
def logsOf (e : Json) : List LogEntry := (handleEvent e initialState).logs

/-! ### Helper lemmas -/

lemma jsFalsy_false_of_evType (e : Json) (j : Json) (h : evType e = some j) :
    jsFalsy (some e) = false := by
  cases e <;> simp [evType, propV, jsFalsy] at h ⊢

lemma handleEvent_requestInput (e : Json) (s : AppState)
    (h : evType e = some (Json.str "request_input")) :
    handleEvent e s = requestInputArm e s := by
  have hf := jsFalsy_false_of_evType e _ h
  simp only [evType] at h
  unfold handleEvent
  rw [hf, h]
  rfl

lemma handleEvent_productChoices (e : Json) (s : AppState)
    (h : evType e = some (Json.str "product_choices")) :
    handleEvent e s = productChoicesArm e s := by
  have hf := jsFalsy_false_of_evType e _ h
  simp only [evType] at h
  unfold handleEvent
  rw [hf, h]
  rfl

lemma handleEvent_addressChoices (e : Json) (s : AppState)
    (h : evType e = some (Json.str "address_choices")) :
    handleEvent e s = addressChoicesArm e s := by
  have hf := jsFalsy_false_of_evType e _ h
  simp only [evType] at h
  unfold handleEvent
  rw [hf, h]
  rfl

lemma handleEvent_paymentChoices (e : Json) (s : AppState)
    (h : evType e = some (Json.str "payment_choices")) :
    handleEvent e s = paymentChoicesArm e s := by
  have hf := jsFalsy_false_of_evType e _ h
  simp only [evType] at h
  unfold handleEvent
  rw [hf, h]
  rfl

lemma handleEvent_options (e : Json) (s : AppState)
    (h : evType e = some (Json.str "options")) :
    handleEvent e s = optionsArm e s := by
  have hf := jsFalsy_false_of_evType e _ h
  simp only [evType] at h
  unfold handleEvent
  rw [hf, h]
  rfl

/-- Specification bundle for the timeline effect of one event. -/
def LogsSpec (e : Json) : Prop :=
  (∀ st : AppState, (handleEvent e st).logs = st.logs ++ logsOf e) ∧ (logsOf e).length ≤ 1

lemma logsSpec_of_id (e : Json) (hall : ∀ st : AppState, handleEvent e st = st) :
    LogsSpec e := by
  have h0 : logsOf e = [] := by
    unfold logsOf
    rw [hall initialState]
    rfl
  exact ⟨fun st => by rw [hall st, h0]; simp, by rw [h0]; simp⟩

lemma logsSpec_of_arm (e : Json) (arm : Json → AppState → AppState)
    (hall : ∀ st : AppState, handleEvent e st = arm e st)
    (htail : ∀ st : AppState, (arm e st).logs = st.logs ++ (arm e initialState).logs)
    (hlen : (arm e initialState).logs.length ≤ 1) :
    LogsSpec e := by
  have h0 : logsOf e = (arm e initialState).logs := by
    unfold logsOf
    rw [hall initialState]

  exact ⟨fun st => by rw [hall st, h0]; exact htail st, by rw [h0]; exact hlen⟩

lemma configArm_tail (e : Json) :
    (∀ st : AppState, (configArm e st).logs = st.logs ++ (configArm e initialState).logs)
    ∧ (configArm e initialState).logs.length ≤ 1 := by
  by_cases hd : definedV (propV e "content") = true
  · exact ⟨fun st => by simp [configArm, hd, pushLog, initialState],
      by simp [configArm, hd, pushLog, initialState]⟩
  · have hd2 : definedV (propV e "content") = false := by simpa using hd
    exact ⟨fun st => by simp [configArm, hd2, initialState],
      by simp [configArm, hd2, initialState]⟩

lemma batchStartArm_tail (e : Json) :
    (∀ st : AppState, (batchStartArm e st).logs = st.logs ++ (batchStartArm e initialState).logs)
    ∧ (batchStartArm e initialState).logs.length ≤ 1 := by
  by_cases hd : definedV (propV e "content") = true
  · exact ⟨fun st => by simp [batchStartArm, hd, pushLog, initialState],
      by simp [batchStartArm, hd, pushLog, initialState]⟩
  · have hd2 : definedV (propV e "content") = false := by simpa using hd
    exact ⟨fun st => by simp [batchStartArm, hd2, initialState],
      by simp [batchStartArm, hd2, initialState]⟩

lemma batchStatusArm_tail (e : Json) :
    (∀ st : AppState, (batchStatusArm e st).logs = st.logs ++ (batchStatusArm e initialState).logs)
    ∧ (batchStatusArm e initialState).logs.length ≤ 1 := by
  exact ⟨fun st => by simp [batchStatusArm, initialState],
    by simp [batchStatusArm, initialState]⟩

lemma batchCompleteArm_tail (e : Json) :
    (∀ st : AppState, (batchCompleteArm e st).logs = st.logs ++ (batchCompleteArm e initialState).logs)
    ∧ (batchCompleteArm e initialState).logs.length ≤ 1 := by
  by_cases hd : definedV (propV e "content") = true
  · exact ⟨fun st => by simp [batchCompleteArm, hd, pushLog, initialState],
      by simp [batchCompleteArm, hd, pushLog, initialState]⟩
  · have hd2 : definedV (propV e "content") = false := by simpa using hd
    exact ⟨fun st => by simp [batchCompleteArm, hd2, initialState],
      by simp [batchCompleteArm, hd2, initialState]⟩

lemma logArm_tail (e : Json) :
    (∀ st : AppState, (logArm e st).logs = st.logs ++ (logArm e initialState).logs)
    ∧ (logArm e initialState).logs.length ≤ 1 := by
  exact ⟨fun st => by simp [logArm, pushLog, initialState],
    by simp [logArm, pushLog, initialState]⟩

lemma requestInputArm_tail (e : Json) :
    (∀ st : AppState, (requestInputArm e st).logs = st.logs ++ (requestInputArm e initialState).logs)
    ∧ (requestInputArm e initialState).logs.length ≤ 1 := by
  exact ⟨fun st => by simp [requestInputArm, initialState],
    by simp [requestInputArm, initialState]⟩

lemma productChoicesArm_tail (e : Json) :
    (∀ st : AppState, (productChoicesArm e st).logs = st.logs ++ (productChoicesArm e initialState).logs)
    ∧ (productChoicesArm e initialState).logs.length ≤ 1 := by
  by_cases hd : definedV (propV e "content") = true
  · by_cases hp : definedV (propJ (propV e "content") "products") = true
    · exact ⟨fun st => by simp [productChoicesArm, hd, hp, pushLog, initialState],
        by simp [productChoicesArm, hd, hp, pushLog, initialState]⟩
    · have hp2 : definedV (propJ (propV e "content") "products") = false := by simpa using hp
      exact ⟨fun st => by simp [productChoicesArm, hd, hp2, initialState],
        by simp [productChoicesArm, hd, hp2, initialState]⟩
  · have hd2 : definedV (propV e "content") = false := by simpa using hd
    exact ⟨fun st => by simp [productChoicesArm, hd2, initialState],
      by simp [productChoicesArm, hd2, initialState]⟩

lemma addressChoicesArm_tail (e : Json) :
    (∀ st : AppState, (addressChoicesArm e st).logs = st.logs ++ (addressChoicesArm e initialState).logs)
    ∧ (addressChoicesArm e initialState).logs.length ≤ 1 := by
  by_cases hd : definedV (propV e "content") = true
  · by_cases hp : definedV (propJ (propV e "content") "addresses") = true
    · exact ⟨fun st => by simp [addressChoicesArm, hd, hp, pushLog, initialState],
        by simp [addressChoicesArm, hd, hp, pushLog, initialState]⟩
    · have hp2 : definedV (propJ (propV e "content") "addresses") = false := by simpa using hp
      exact ⟨fun st => by simp [addressChoicesArm, hd, hp2, initialState],
        by simp [addressChoicesArm, hd, hp2, initialState]⟩
  · have hd2 : definedV (propV e "content") = false := by simpa using hd
    exact ⟨fun st => by simp [addressChoicesArm, hd2, initialState],
      by simp [addressChoicesArm, hd2, initialState]⟩

lemma paymentChoicesArm_tail (e : Json) :
    (∀ st : AppState, (paymentChoicesArm e st).logs = st.logs ++ (paymentChoicesArm e initialState).logs)
    ∧ (paymentChoicesArm e initialState).logs.length ≤ 1 := by
  by_cases hd : definedV (propV e "content") = true
  · exact ⟨fun st => by simp [paymentChoicesArm, hd, pushLog, initialState],
      by simp [paymentChoicesArm, hd, pushLog, initialState]⟩
  · have hd2 : definedV (propV e "content") = false := by simpa using hd
    exact ⟨fun st => by simp [paymentChoicesArm, hd2, initialState],
      by simp [paymentChoicesArm, hd2, initialState]⟩

lemma optionsArm_tail (e : Json) :
    (∀ st : AppState, (optionsArm e st).logs = st.logs ++ (optionsArm e initialState).logs)
    ∧ (optionsArm e initialState).logs.length ≤ 1 := by
  by_cases hd : definedV (propV e "content") = true
  · exact ⟨fun st => by simp [optionsArm, hd, pushLog, initialState],
      by simp [optionsArm, hd, pushLog, initialState]⟩
  · have hd2 : definedV (propV e "content") = false := by simpa using hd
    exact ⟨fun st => by simp [optionsArm, hd2, initialState],
      by simp [optionsArm, hd2, initialState]⟩

lemma resultArm_tail (e : Json) :
    (∀ st : AppState, (resultArm e st).logs = st.logs ++ (resultArm e initialState).logs)
    ∧ (resultArm e initialState).logs.length ≤ 1 := by
  cases hp : parseJson (jsToString (propV e "content")) with
  | some v =>
    exact ⟨fun st => by simp [resultArm, hp, pushLog, initialState],
      by simp [resultArm, hp, pushLog, initialState]⟩
  | none =>
    exact ⟨fun st => by simp [resultArm, hp, pushLog, initialState],
      by simp [resultArm, hp, pushLog, initialState]⟩

lemma errorArm_tail (e : Json) :
    (∀ st : AppState, (errorArm e st).logs = st.logs ++ (errorArm e initialState).logs)
    ∧ (errorArm e initialState).logs.length ≤ 1 := by
  exact ⟨fun st => by simp [errorArm, pushLog, initialState],
    by simp [errorArm, pushLog, initialState]⟩

lemma handleEvent_logsSpec (e : Json) : LogsSpec e := by
  by_cases hf : jsFalsy (some e) = true
  · exact logsSpec_of_id e (fun st => by simp [handleEvent, hf])
  · have hf2 : jsFalsy (some e) = false := by simpa using hf
    rcases ht : propV e "type" with _ | j
    · exact logsSpec_of_id e (fun st => by unfold handleEvent; rw [hf2, ht]; rfl)
    · cases j with
      | null => exact logsSpec_of_id e (fun st => by unfold handleEvent; rw [hf2, ht]; rfl)
      | bool b => exact logsSpec_of_id e (fun st => by unfold handleEvent; rw [hf2, ht]; rfl)
      | num lx => exact logsSpec_of_id e (fun st => by unfold handleEvent; rw [hf2, ht]; rfl)
      | arr l => exact logsSpec_of_id e (fun st => by unfold handleEvent; rw [hf2, ht]; rfl)
      | obj fs => exact logsSpec_of_id e (fun st => by unfold handleEvent; rw [hf2, ht]; rfl)
      | str t =>
        by_cases h1 : t = "config"
        · subst h1
          exact logsSpec_of_arm e configArm
            (fun st => by unfold handleEvent; rw [hf2, ht]; rfl)
            (configArm_tail e).1 (configArm_tail e).2
        by_cases h2 : t = "batch_start"
        · subst h2
          exact logsSpec_of_arm e batchStartArm
            (fun st => by unfold handleEvent; rw [hf2, ht]; rfl)
            (batchStartArm_tail e).1 (batchStartArm_tail e).2
        by_cases h3 : t = "batch_status"
        · subst h3
          exact logsSpec_of_arm e batchStatusArm
            (fun st => by unfold handleEvent; rw [hf2, ht]; rfl)
            (batchStatusArm_tail e).1 (batchStatusArm_tail e).2
        by_cases h4 : t = "batch_complete"
        · subst h4
          exact logsSpec_of_arm e batchCompleteArm
            (fun st => by unfold handleEvent; rw [hf2, ht]; rfl)
            (batchCompleteArm_tail e).1 (batchCompleteArm_tail e).2
        by_cases h5 : t = "log"
        · subst h5
          exact logsSpec_of_arm e logArm
            (fun st => by unfold handleEvent; rw [hf2, ht]; rfl)
            (logArm_tail e).1 (logArm_tail e).2
        by_cases h6 : t = "request_input"
        · subst h6
          exact logsSpec_of_arm e requestInputArm
            (fun st => by unfold handleEvent; rw [hf2, ht]; rfl)
            (requestInputArm_tail e).1 (requestInputArm_tail e).2
        by_cases h7 : t = "product_choices"
        · subst h7
          exact logsSpec_of_arm e productChoicesArm
            (fun st => by unfold handleEvent; rw [hf2, ht]; rfl)
            (productChoicesArm_tail e).1 (productChoicesArm_tail e).2
        by_cases h8 : t = "address_choices"
        · subst h8
          exact logsSpec_of_arm e addressChoicesArm
            (fun st => by unfold handleEvent; rw [hf2, ht]; rfl)
            (addressChoicesArm_tail e).1 (addressChoicesArm_tail e).2
        by_cases h9 : t = "payment_choices"
        · subst h9
          exact logsSpec_of_arm e paymentChoicesArm
            (fun st => by unfold handleEvent; rw [hf2, ht]; rfl)
            (paymentChoicesArm_tail e).1 (paymentChoicesArm_tail e).2
        by_cases h10 : t = "options"
        · subst h10
          exact logsSpec_of_arm e optionsArm
            (fun st => by unfold handleEvent; rw [hf2, ht]; rfl)
            (optionsArm_tail e).1 (optionsArm_tail e).2
        by_cases h11 : t = "result"
        · subst h11
          exact logsSpec_of_arm e resultArm
            (fun st => by unfold handleEvent; rw [hf2, ht]; rfl)
            (resultArm_tail e).1 (resultArm_tail e).2
        by_cases h12 : t = "error"
        · subst h12
          exact logsSpec_of_arm e errorArm
            (fun st => by unfold handleEvent; rw [hf2, ht]; rfl)
            (errorArm_tail e).1 (errorArm_tail e).2
        exact logsSpec_of_id e (fun st => by
          unfold handleEvent
          rw [hf2, ht]
          simp [jsStrEq, h1, h2, h3, h4, h5, h6, h7, h8, h9, h10, h11, h12])

/-! ### The claims -/

/-- Claim C1: each prompt-opening event (`request_input`, `product_choices`,
`address_choices`, `payment_choices`, `options`) makes its family's single
`PendingPrompt` record exactly the new event's data — message, choices and
sessionId — independent of whatever prompt state (open or closed) was there
before, so prompts replace and never stack.  For the four choice families the
event's `content` must be a defined value (otherwise the JavaScript arm
throws before its `set` call and the old prompt record survives). -/
theorem claim1_prompt_replacement (e : Json) (s : AppState) :
    (evType e = some (Json.str "request_input") →
      (handleEvent e s).hitlData = ⟨true, propV e "content", propV e "session_id"⟩)
  ∧ (evType e = some (Json.str "product_choices") → definedV (propV e "content") = true →
      (handleEvent e s).productChoices
        = ⟨true, propJ (propV e "content") "message", propJ (propV e "content") "products",
            propV e "session_id"⟩)
  ∧ (evType e = some (Json.str "address_choices") → definedV (propV e "content") = true →
      (handleEvent e s).addressChoices
        = ⟨true, propJ (propV e "content") "message", propJ (propV e "content") "addresses",
            propV e "session_id"⟩)
  ∧ (evType e = some (Json.str "payment_choices") → definedV (propV e "content") = true →
      (handleEvent e s).paymentChoices
        = ⟨true, propJ (propV e "content") "message", propJ (propV e "content") "payments",
            propV e "session_id"⟩)
  ∧ (evType e = some (Json.str "options") → definedV (propV e "content") = true →
      (handleEvent e s).generalOptions
        = ⟨true, propJ (propV e "content") "message", propJ (propV e "content") "options",
            (if jsFalsy (propJ (propV e "content") "option_type") then some (Json.str "general")
             else propJ (propV e "content") "option_type"),
            propV e "session_id"⟩) := by
  refine ⟨fun h => ?_, fun h hd => ?_, fun h hd => ?_, fun h hd => ?_, fun h hd => ?_⟩
  · rw [handleEvent_requestInput e s h]
    rfl
  · rw [handleEvent_productChoices e s h]
    unfold productChoicesArm
    simp only [hd, if_true]
    split <;> rfl
  · rw [handleEvent_addressChoices e s h]
    unfold addressChoicesArm
    simp only [hd, if_true]
    split <;> rfl
  · rw [handleEvent_paymentChoices e s h]
    unfold paymentChoicesArm
    simp only [hd, if_true]
    rfl
  · rw [handleEvent_options e s h]
    unfold optionsArm
    simp only [hd, if_true]
    rfl

/-- Claim C1 witness: a concrete `product_choices` event dispatched onto a
state that already has an open prompt and a non-empty batch snapshot. -/
theorem claim1_witness :
    evType productChoicesEvent = some (Json.str "product_choices")
  ∧ definedV (propV productChoicesEvent "content") = true
  ∧ (handleEvent productChoicesEvent runningPromptState).productChoices
      = ⟨true, propJ (propV productChoicesEvent "content") "message",
          propJ (propV productChoicesEvent "content") "products",
          propV productChoicesEvent "session_id"⟩ :=
  ⟨rfl, rfl, (claim1_prompt_replacement productChoicesEvent runningPromptState).2.1 rfl rfl⟩

/-- Claim C2 counterexample: on a successful resume for the free-text family,
`handleHitlSubmit` closes the prompt but appends no confirmatory entry at
all — starting from an open free-text prompt with an empty timeline, the
timeline is still empty afterwards, refuting the claim for that family. -/
theorem claim2_counterexample :
    runningPromptState.hitlData.isOpen = true
  ∧ (handleHitlSubmit okSubmitResp runningPromptState).hitlData.isOpen = false
  ∧ (handleHitlSubmit okSubmitResp runningPromptState).logs = [] :=
  ⟨rfl, rfl, rfl⟩

/-- Claim C2 (amended): on a success response (HTTP ok and no
application-level error status) every family's submission handler closes its
`PendingPrompt` (only `isOpen` flips; message, choices and sessionId are
kept); the four choice families additionally append one confirmatory text
entry naming the selection, while the free-text handler appends nothing. -/
theorem claim2_submit_success (resp : FetchResult) (h : submitError resp = none)
    (s : AppState) (product address payment opt : Json) :
    handleHitlSubmit resp s = { s with hitlData := { s.hitlData with isOpen := false } }
  ∧ handleProductSelect resp product s
      = pushLog { s with productChoices := { s.productChoices with isOpen := false } }
          (textEntry ("Selected: " ++ jsToString (propV product "product_name")))
  ∧ handleAddressSelect resp address s
      = pushLog { s with addressChoices := { s.addressChoices with isOpen := false } }
          (textEntry ("Selected address: " ++ jsToString (propV address "name") ++ " - " ++
            jsToString (propV address "address")))
  ∧ handlePaymentSelect resp payment s
      = pushLog { s with paymentChoices := { s.paymentChoices with isOpen := false } }
          (textEntry ("Selected payment: " ++ jsToString (propV payment "method")))
  ∧ handleOptionSelect resp opt s
      = pushLog { s with generalOptions := { s.generalOptions with isOpen := false } }
          (textEntry ("Selected: " ++ jsToString (propV opt "label"))) := by
  unfold handleHitlSubmit handleProductSelect handleAddressSelect handlePaymentSelect handleOptionSelect
  rw [h]
  exact ⟨rfl, rfl, rfl, rfl, rfl⟩

/-- Claim C2 witness: the amended behavior at a concrete ok response and
product. -/
theorem claim2_witness :
    handleHitlSubmit okSubmitResp runningPromptState
      = { runningPromptState with hitlData := { runningPromptState.hitlData with isOpen := false } }
  ∧ handleProductSelect okSubmitResp sampleProduct runningPromptState
      = pushLog { runningPromptState with productChoices :=
            { runningPromptState.productChoices with isOpen := false } }
          (textEntry ("Selected: " ++ jsToString (propV sampleProduct "product_name"))) :=
  ⟨(claim2_submit_success okSubmitResp rfl runningPromptState sampleProduct sampleProduct
      sampleProduct sampleProduct).1,
   (claim2_submit_success okSubmitResp rfl runningPromptState sampleProduct sampleProduct
      sampleProduct sampleProduct).2.1⟩

/-- Claim C3: when a resume submission fails (network error, non-ok HTTP
response, or a body whose `status` field is the string "error"), every
family's handler leaves its prompt record completely unchanged (so an open
prompt stays open with the same message, choices and sessionId) and appends
exactly one error entry to the timeline. -/
theorem claim3_submit_failure_keeps_prompt (resp : FetchResult) (msg : String)
    (h : submitError resp = some msg)
    (s : AppState) (product address payment opt : Json) :
    handleHitlSubmit resp s = pushLog s (errorEntry ("Failed to submit input: " ++ msg))
  ∧ (handleHitlSubmit resp s).hitlData = s.hitlData
  ∧ handleProductSelect resp product s
      = pushLog s (errorEntry ("Failed to submit selection: " ++ msg))
  ∧ (handleProductSelect resp product s).productChoices = s.productChoices
  ∧ handleAddressSelect resp address s
      = pushLog s (errorEntry ("Failed to submit selection: " ++ msg))
  ∧ (handleAddressSelect resp address s).addressChoices = s.addressChoices
  ∧ handlePaymentSelect resp payment s
      = pushLog s (errorEntry ("Failed to submit selection: " ++ msg))
  ∧ (handlePaymentSelect resp payment s).paymentChoices = s.paymentChoices
  ∧ handleOptionSelect resp opt s
      = pushLog s (errorEntry ("Failed to submit selection: " ++ msg))
  ∧ (handleOptionSelect resp opt s).generalOptions = s.generalOptions := by
  unfold handleHitlSubmit handleProductSelect handleAddressSelect handlePaymentSelect handleOptionSelect
  rw [h]
  exact ⟨rfl, rfl, rfl, rfl, rfl, rfl, rfl, rfl, rfl, rfl⟩

/-- Claim C3 witness: a concrete 500 response against an open free-text
prompt. -/
theorem claim3_witness :
    submitError (FetchResult.httpError 500) = some "Server error: 500"
  ∧ (handleHitlSubmit (FetchResult.httpError 500) runningPromptState).hitlData
      = runningPromptState.hitlData
  ∧ (handleHitlSubmit (FetchResult.httpError 500) runningPromptState).logs
      = [errorEntry "Failed to submit input: Server error: 500"] := by
  have H := claim3_submit_failure_keeps_prompt (FetchResult.httpError 500) "Server error: 500"
      rfl runningPromptState sampleProduct sampleProduct sampleProduct sampleProduct
  refine ⟨rfl, H.2.1, ?_⟩
  rw [H.1]
  rfl

/-- Claim C4: a marked line whose body fails `JSON.parse` leaves the state
exactly unchanged (dropped, stream not aborted), and the three-frame chunk
with the malformed middle frame appends exactly the two text entries "a" and
"b" in that order and changes nothing else. -/
theorem claim4_malformed_frame_skipped (s : AppState) (line : List Char)
    (hm : startsWithChars "data: ".toList line = true)
    (hp : parseJsonChars (line.drop 6) = none) :
    processLine s line = s
  ∧ processChunk s threeFrameChunk
      = { s with logs := s.logs ++ [textEntry "a", textEntry "b"] } := by
  constructor
  · by_cases he : (line.drop 6).isEmpty = true <;> simp [processLine, hm, hp, he]
  · have h1 : processChunk s threeFrameChunk
        = { s with logs := (s.logs ++ [textEntry "a"]) ++ [textEntry "b"] } := rfl
    rw [h1, List.append_assoc]
    rfl

/-- Claim C4 witness: the malformed frame of the claim's own chunk. -/
theorem claim4_witness :
    startsWithChars "data: ".toList "data: not-json".toList = true
  ∧ parseJsonChars ("data: not-json".toList.drop 6) = none
  ∧ processLine initialState "data: not-json".toList = initialState :=
  ⟨rfl, rfl,
   (claim4_malformed_frame_skipped initialState "data: not-json".toList rfl rfl).1⟩

/-- Claim C5 counterexample: a well-formed `log` frame without the `data: `
marker is not parsed and not dispatched — the state is exactly unchanged and
no entry appears — refuting the claim that the marker is optional. -/
theorem claim5_counterexample :
    processChunk initialState "\x7b\"type\":\"log\",\"content\":\"a\"\x7d\n\n" = initialState
  ∧ (processChunk initialState "\x7b\"type\":\"log\",\"content\":\"a\"\x7d\n\n").logs = [] :=
  ⟨rfl, rfl⟩

/-- Claim C5 (amended): the `data: ` marker is mandatory, not optional: an
unmarked frame is skipped entirely for any state; a marked frame with an
empty body is a no-op keep-alive; a marked well-formed frame is parsed and
dispatched. -/
theorem claim5_marker_required (s : AppState) :
    processChunk s "\x7b\"type\":\"log\",\"content\":\"a\"\x7d\n\n" = s
  ∧ processChunk s "data: \n\n" = s
  ∧ processChunk s "data: \x7b\"type\":\"log\",\"content\":\"a\"\x7d\n\n" = pushLog s (textEntry "a") :=
  ⟨rfl, rfl, rfl⟩

/-- Claim C6 counterexample: starting a run does not clear the prompt
registry or (for `runAgent`) the batch tracker — from a state with an open
free-text prompt and a non-empty batch snapshot, the prompt is still open
after both start sequences and `runAgent` keeps the old snapshot. -/
theorem claim6_counterexample :
    (startRunAgent runningPromptState).hitlData.isOpen = true
  ∧ (startRunAgent runningPromptState).batchStatus ≠ some (Json.arr [])
  ∧ (startBatchAgent runningPromptState).hitlData.isOpen = true := by
  refine ⟨rfl, ?_, rfl⟩
  simp [startRunAgent, runningPromptState, initialState]

/-- Claim C6 (amended): before any event of the new run is dispatched,
`runAgent` sets `isRunning` and clears only the timeline, and `runBatchAgent`
sets `isRunning` and clears the timeline and the batch tracker; neither start
sequence touches any of the five prompt families, and `runAgent` keeps the
previous batch snapshot. -/
theorem claim6_run_start_effects (s : AppState) (chunks : List String) :
    (startRunAgent s).isRunning = true
  ∧ (startRunAgent s).logs = []
  ∧ (startRunAgent s).hitlData = s.hitlData
  ∧ (startRunAgent s).productChoices = s.productChoices
  ∧ (startRunAgent s).addressChoices = s.addressChoices
  ∧ (startRunAgent s).paymentChoices = s.paymentChoices
  ∧ (startRunAgent s).generalOptions = s.generalOptions
  ∧ (startRunAgent s).batchStatus = s.batchStatus
  ∧ (startBatchAgent s).isRunning = true
  ∧ (startBatchAgent s).logs = []
  ∧ (startBatchAgent s).batchStatus = some (Json.arr [])
  ∧ (startBatchAgent s).hitlData = s.hitlData
  ∧ (startBatchAgent s).productChoices = s.productChoices
  ∧ (startBatchAgent s).addressChoices = s.addressChoices
  ∧ (startBatchAgent s).paymentChoices = s.paymentChoices
  ∧ (startBatchAgent s).generalOptions = s.generalOptions
  ∧ runAgentModel chunks s = { processChunks (startRunAgent s) chunks with isRunning := false }
  ∧ runBatchAgentModel chunks s
      = { processChunks (startBatchAgent s) chunks with isRunning := false } :=
  ⟨rfl, rfl, rfl, rfl, rfl, rfl, rfl, rfl, rfl, rfl, rfl, rfl, rfl, rfl, rfl, rfl, rfl, rfl⟩

/-- Claim C7: a `batch_status` event replaces the whole batch snapshot with
its payload, whatever the previous snapshot was; after dispatching the
claim's two snapshots in order, the tracker holds exactly the second
snapshot's two items. -/
theorem claim7_batch_snapshot_replacement (j : Json) (s : AppState) :
    handleEvent (Json.obj [("type", Json.str "batch_status"), ("content", j)]) s
      = { s with batchStatus := some j }
  ∧ (handleEvents
      [Json.obj [("type", Json.str "batch_status"),
         ("content", Json.arr [Json.obj [("idx", Json.num "0"), ("status", Json.str "pending")]])],
       Json.obj [("type", Json.str "batch_status"),
         ("content", Json.arr
           [Json.obj [("idx", Json.num "0"), ("status", Json.str "success")],
            Json.obj [("idx", Json.num "1"), ("status", Json.str "pending")]])]] s).batchStatus
      = some (Json.arr
          [Json.obj [("idx", Json.num "0"), ("status", Json.str "success")],
           Json.obj [("idx", Json.num "1"), ("status", Json.str "pending")]]) :=
  ⟨rfl, rfl⟩

/-- Claim C8: a `result` event whose content parses as JSON appends one
structured-result entry with the parsed value; one whose content does not
parse appends one success entry carrying the raw string. -/
theorem claim8_result_parse (s : AppState) (c : String) (v : Json) :
    (parseJson c = some v →
      handleEvent (Json.obj [("type", Json.str "result"), ("content", Json.str c)]) s
        = pushLog s ⟨"result-json", some v, none⟩)
  ∧ (parseJson c = none →
      handleEvent (Json.obj [("type", Json.str "result"), ("content", Json.str c)]) s
        = pushLog s ⟨"success", some (Json.str ("**Result:** " ++ c)), none⟩) := by
  have hred : handleEvent (Json.obj [("type", Json.str "result"), ("content", Json.str c)]) s
      = (match parseJson c with
         | some parsed => pushLog s ⟨"result-json", some parsed, none⟩
         | none => pushLog s ⟨"success", some (Json.str ("**Result:** " ++ c)), none⟩) := rfl
  exact ⟨fun h => by rw [hred, h], fun h => by rw [hred, h]⟩

/-- Claim C8 witness: the claim's own two contents. -/
theorem claim8_witness :
    parseJson "\x7b\"product_name\":\"X\",\"price\":\"$9\"\x7d"
      = some (Json.obj [("product_name", Json.str "X"), ("price", Json.str "$9")])
  ∧ parseJson "not json" = none
  ∧ handleEvent (Json.obj [("type", Json.str "result"),
        ("content", Json.str "\x7b\"product_name\":\"X\",\"price\":\"$9\"\x7d")]) initialState
      = pushLog initialState ⟨"result-json",
          some (Json.obj [("product_name", Json.str "X"), ("price", Json.str "$9")]), none⟩
  ∧ handleEvent (Json.obj [("type", Json.str "result"), ("content", Json.str "not json")])
        initialState
      = pushLog initialState ⟨"success", some (Json.str "**Result:** not json"), none⟩ :=
  ⟨rfl, rfl,
   (claim8_result_parse initialState "\x7b\"product_name\":\"X\",\"price\":\"$9\"\x7d"
      (Json.obj [("product_name", Json.str "X"), ("price", Json.str "$9")])).1 rfl,
   (claim8_result_parse initialState "not json" Json.null).2 rfl⟩

/-- Claim C9: the timeline is append-only and order-preserving: each
dispatched event appends the event-determined list `logsOf e` (of length at
most one) at the end of the timeline, nothing is ever edited or removed, and
a whole event sequence appends the concatenation of its events' entries in
decode order. -/
theorem claim9_timeline_append_only (es : List Json) (e : Json) (s : AppState) :
    (handleEvent e s).logs = s.logs ++ logsOf e
  ∧ (logsOf e).length ≤ 1
  ∧ (handleEvents es s).logs = s.logs ++ es.flatMap logsOf := by
  refine ⟨(handleEvent_logsSpec e).1 s, (handleEvent_logsSpec e).2, ?_⟩
  induction es generalizing s with
  | nil => simp [handleEvents]
  | cons x xs ih =>
    have hstep : handleEvents (x :: xs) s = handleEvents xs (handleEvent x s) := rfl
    rw [hstep, ih (handleEvent x s), (handleEvent_logsSpec x).1 s]
    simp

/-- Claim C10 counterexample: a well-formed frame whose delimiter straddles
the read boundary is still dispatched — the two fragment reads of
`splitDelimChunks` produce the "a" entry, because `JSON.parse` tolerates the
trailing newline left on the first fragment — refuting "no event is
dispatched" for delimiter-straddling splits. -/
theorem claim10_counterexample :
    (processChunks initialState splitDelimChunks).logs = [textEntry "a"]
  ∧ (processChunks initialState splitDelimChunks).logs.length = 1 :=
  ⟨rfl, rfl⟩

/-- Claim C10 (amended): the decoder keeps no buffer between reads — each
chunk is split and processed independently; a frame whose JSON object body
straddles the boundary dispatches nothing (both fragments are dropped, one
failing the marker check and one failing `JSON.parse`), but a frame split
between the two newlines of its delimiter is still dispatched, since
`JSON.parse` ignores the trailing whitespace on the first fragment. -/
theorem claim10_no_buffering (s : AppState) (c1 c2 : String) :
    processChunks s [c1, c2] = processChunk (processChunk s c1) c2
  ∧ processChunks s splitBodyChunks = s
  ∧ processChunks s splitDelimChunks = pushLog s (textEntry "a") :=
  ⟨rfl, rfl, rfl⟩

end AgentApp
